import Mathlib

/-
  Verification of the universe_simulation repository's physics core.

  Shallow embedding of objects.py (CelestialObject and its subclasses),
  physics.py (PhysicsEngine), universe.py (Universe.update) and
  utils.py (calculate_distance).  Python floats are modelled as real
  numbers; Python's None is modelled with Option.
-/

namespace UniverseSim

/-- Kinds of celestial object, mirroring the class hierarchy of objects.py. -/
inductive ObjectKind
  | star
  | planet
  | asteroid
  | nebula
  | blackHole
  deriving DecidableEq, Repr

/-- State of objects.py CelestialObject that the physics core reads or writes:
name, mass, position, velocity, size, accumulated force, trail and its
per-kind capacity, plus the kind tag replacing the class hierarchy. -/
structure CelestialObject where
  name : String
  mass : ℝ
  position : ℝ × ℝ
  velocity : ℝ × ℝ
  size : ℝ
  force : ℝ × ℝ
  trail : List (ℝ × ℝ)
  max_trail_length : ℕ
  kind : ObjectKind

instance : Inhabited CelestialObject :=
  ⟨⟨"", 0, (0, 0), (0, 0), 0, (0, 0), [], 0, ObjectKind.star⟩⟩

/-- Helper building a fresh object the way the constructors of objects.py do:
zero accumulated force, empty trail, default capacity 50. -/
def mkObj (name : String) (mass : ℝ) (position velocity : ℝ × ℝ)
    (size : ℝ) (kind : ObjectKind) : CelestialObject :=
  ⟨name, mass, position, velocity, size, (0, 0), [], 50, kind⟩

/-- utils.py calculate_distance: Euclidean distance of two positions. -/
noncomputable def calculate_distance (pos1 pos2 : ℝ × ℝ) : ℝ :=
  Real.sqrt ((pos1.1 - pos2.1) ^ 2 + (pos1.2 - pos2.2) ^ 2)

/-- objects.py CelestialObject.update_position: integrate the position, append
it to the trail and pop the oldest entry when the capacity is exceeded. -/
noncomputable def update_position (obj : CelestialObject) (dt : ℝ) : CelestialObject :=
  let newPos : ℝ × ℝ :=
    (obj.position.1 + obj.velocity.1 * dt, obj.position.2 + obj.velocity.2 * dt)
  let newTrail := obj.trail ++ [newPos]
  { obj with
      position := newPos
      trail := if newTrail.length > obj.max_trail_length then newTrail.drop 1 else newTrail }

/-- objects.py CelestialObject.update_velocity: integrate the velocity from the
accumulated force, gated on positive mass and on not being a BlackHole. -/
noncomputable def update_velocity (obj : CelestialObject) (dt : ℝ) : CelestialObject :=
  if obj.mass > 0 ∧ obj.kind ≠ ObjectKind.blackHole then
    { obj with
        velocity :=
          (obj.velocity.1 + obj.force.1 / obj.mass * dt,
           obj.velocity.2 + obj.force.2 / obj.mass * dt) }
  else obj

/-- physics.py FORCE_CONSTANT, written 1*10e-11 in the source (equal to 1e-10). -/
noncomputable def FORCE_CONSTANT : ℝ := 1 * 10e-11

/-- physics.py G, the scaled-down gravitational constant. -/
noncomputable def G : ℝ := 6.67430e-15

/-- physics.py PhysicsEngine: the two flags set in its constructor. -/
structure PhysicsEngine where
  gravity_enabled : Bool
  collision_detection : Bool

/-- physics.py PhysicsEngine.calculate_gravitational_force. -/
noncomputable def calculate_gravitational_force (mass1 mass2 distance : ℝ) : ℝ :=
  if distance = 0 then 0 else G * mass1 * mass2 / (distance * distance)

/-- Force vector that one inner-loop iteration of
PhysicsEngine.calculate_gravitational_forces adds to obj1 (obj2 receives its
negation): the mass guard, the distance guard, the normalisation guard and the
FORCE_CONSTANT scaling of physics.py, with obj1 in the role of the outer-loop
object. -/
noncomputable def pairForce (obj1 obj2 : CelestialObject) : ℝ × ℝ :=
  if obj1.mass > 0 ∧ obj2.mass > 0 then
    let distance := calculate_distance obj1.position obj2.position
    if distance > 0 then
      let force_magnitude := calculate_gravitational_force obj1.mass obj2.mass distance
      let dx := obj2.position.1 - obj1.position.1
      let dy := obj2.position.2 - obj1.position.2
      let length := Real.sqrt (dx * dx + dy * dy)
      if length > 0 then
        (force_magnitude * (dx / length) * FORCE_CONSTANT,
         force_magnitude * (dy / length) * FORCE_CONSTANT)
      else (0, 0)
    else (0, 0)
  else (0, 0)

/-- Contribution of the ordered-pair iteration (i, j) of the double loop of
calculate_gravitational_forces to the accumulated force of the object at
index k: the object at index i receives the pair force and the object at
index j its negation. -/
noncomputable def pairContrib (objects : List CelestialObject) (i j k : ℕ) : ℝ × ℝ :=
  (if k = i then pairForce (objects.getD i default) (objects.getD j default) else 0) +
    (if k = j then -pairForce (objects.getD i default) (objects.getD j default) else 0)

/-- Net accumulated force on the object at index k after the full double pass
of calculate_gravitational_forces.  The pass first resets every force to zero
and then only ever adds pair contributions, and no iteration reads any force,
mass or position that another iteration writes, so the final accumulated value
is the sum of the contributions of all ordered-pair iterations with i distinct
from j. -/
noncomputable def netForce (objects : List CelestialObject) (k : ℕ) : ℝ × ℝ :=
  ∑ i ∈ Finset.range objects.length, ∑ j ∈ Finset.range objects.length,
    if i ≠ j then pairContrib objects i j k else 0

/-- physics.py PhysicsEngine.calculate_gravitational_forces: early return when
gravity is disabled, otherwise reset every force and run the double pass. -/
noncomputable def calculate_gravitational_forces (engine : PhysicsEngine)
    (objects : List CelestialObject) : List CelestialObject :=
  if engine.gravity_enabled then
    objects.mapIdx fun k obj => { obj with force := netForce objects k }
  else objects

/-- Modelled from the spec's words, for the refinement comparison of the force
pass: the net force when each unordered pair is computed once (lower index
first) and applied with equal-and-opposite signs. -/
noncomputable def singlePassNetForce (objects : List CelestialObject) (k : ℕ) : ℝ × ℝ :=
  ∑ i ∈ Finset.range objects.length, ∑ j ∈ Finset.range objects.length,
    if i < j then pairContrib objects i j k else 0

/-- physics.py PhysicsEngine.update_objects: one velocity pass over all
objects, then one position pass. -/
noncomputable def update_objects (objects : List CelestialObject) (time_step : ℝ) :
    List CelestialObject :=
  (objects.map fun obj => update_velocity obj time_step).map fun obj =>
    update_position obj time_step

/-- Index pairs (i, j) with i < j whose objects overlap, in the order the
nested enumerate loops of PhysicsEngine.check_collisions visit them. -/
noncomputable def collidingIndexPairs (objects : List CelestialObject) : List (ℕ × ℕ) :=
  (List.range objects.length ×ˢ List.range objects.length).filterMap
    fun p =>
      if p.1 < p.2 ∧
          calculate_distance (objects.getD p.1 default).position
              (objects.getD p.2 default).position <
            (objects.getD p.1 default).size + (objects.getD p.2 default).size then
        some p
      else none

/-- physics.py PhysicsEngine.check_collisions: None when collision detection
is disabled, otherwise the list of overlapping (obj1, obj2) pairs in loop
order. -/
noncomputable def check_collisions (engine : PhysicsEngine)
    (objects : List CelestialObject) :
    Option (List (CelestialObject × CelestialObject)) :=
  if engine.collision_detection then
    some ((collidingIndexPairs objects).map fun p =>
      (objects.getD p.1 default, objects.getD p.2 default))
  else none

/-- physics.py PhysicsEngine.handle_collision: returns the object to remove,
obj2 when obj1's mass is greater or equal, obj1 otherwise. -/
noncomputable def handle_collision (obj1 obj2 : CelestialObject) : CelestialObject :=
  if obj1.mass ≥ obj2.mass then obj2 else obj1

/-- physics.py PhysicsEngine.calculate_orbital_velocity. -/
noncomputable def calculate_orbital_velocity (central_mass distance : ℝ) : ℝ :=
  if distance ≤ 0 ∨ central_mass ≤ 0 then 0
  else Real.sqrt (G * central_mass / distance)

/-- universe.py Universe state used by Universe.update: the name-keyed object
mapping as an insertion-ordered association list (a Python dict keeps
insertion order and has unique keys), the physics engine and the clock. -/
structure Universe where
  objects : List (String × CelestialObject)
  physics_engine : PhysicsEngine
  time : ℝ
  time_step : ℝ

/-- Lookup in the name-keyed mapping (dict.get on the objects dict). -/
def lookupObject (objects : List (String × CelestialObject)) (name : String) :
    Option CelestialObject :=
  (objects.find? fun p => p.1 == name).map Prod.snd

/-- Removal of the entry with the given key (dict.pop on a present key). -/
def popObject (objects : List (String × CelestialObject)) (name : String) :
    List (String × CelestialObject) :=
  objects.eraseP fun p => p.1 == name

/-- Deferred removal pass at the end of universe.py Universe.update: each
marked object is popped when its name is still present (a CelestialObject is
always truthy, so dict.get acts as a presence test), otherwise skipped. -/
def removePass (objects : List (String × CelestialObject))
    (to_remove : List CelestialObject) : List (String × CelestialObject) :=
  to_remove.foldl
    (fun acc obj =>
      if (lookupObject acc obj.name).isSome then popObject acc obj.name else acc)
    objects

/-- Values of the objects mapping after the force phase and the integration
phase of Universe.update, re-keyed by their unchanged names (the Python code
mutates the dict values in place, so keys and their order are unchanged). -/
noncomputable def Universe.integrated (u : Universe) : List (String × CelestialObject) :=
  (u.objects.map Prod.fst).zip
    (update_objects
      (calculate_gravitational_forces u.physics_engine (u.objects.map Prod.snd))
      u.time_step)

/-- universe.py Universe.update: force phase, integration phase, collision
detection, collision handling, the deferred removal pass and the clock tick.
When collision detection is disabled, check_collisions returns None and the
unconditional iteration over it raises a TypeError; the aborted tick is
modelled as none. -/
noncomputable def Universe.update (u : Universe) : Option Universe :=
  match check_collisions u.physics_engine (u.integrated.map Prod.snd) with
  | none => none
  | some collisions =>
      some { u with
              objects := removePass u.integrated
                (collisions.map fun p => handle_collision p.1 p.2)
              time := u.time + u.time_step }

/-- Iterated position-integration steps on a single object. -/
noncomputable def iteratePosition (obj : CelestialObject) (dt : ℝ) : ℕ → CelestialObject
  | 0 => obj
  | n + 1 => update_position (iteratePosition obj dt n) dt

/-- C8: calculate_orbital_velocity returns sqrt (G * central_mass / distance)
when both arguments are positive and returns 0, raising nothing, whenever
distance ≤ 0 or central_mass ≤ 0; in particular it returns 0 at
(central_mass, distance) = (0, 100) and at (100, 0). -/
theorem c8_orbital_velocity (central_mass distance : ℝ) :
    (0 < central_mass → 0 < distance →
      calculate_orbital_velocity central_mass distance =
        Real.sqrt (G * central_mass / distance)) ∧
    (distance ≤ 0 ∨ central_mass ≤ 0 →
      calculate_orbital_velocity central_mass distance = 0) ∧
    calculate_orbital_velocity 0 100 = 0 ∧
    calculate_orbital_velocity 100 0 = 0 := by
  refine ⟨fun hm hd => ?_, fun h => ?_, ?_, ?_⟩
  · rw [calculate_orbital_velocity, if_neg]
    push_neg
    exact ⟨hd, hm⟩
  · rw [calculate_orbital_velocity, if_pos h]
  · rw [calculate_orbital_velocity, if_pos (Or.inr le_rfl)]
  · rw [calculate_orbital_velocity, if_pos (Or.inl le_rfl)]

/-- Witness for C8 at concrete inputs. -/
theorem c8_orbital_velocity_witness :
    calculate_orbital_velocity 1 1 = Real.sqrt (G * 1 / 1) ∧
    calculate_orbital_velocity 1 (-1) = 0 := by
  refine ⟨(c8_orbital_velocity 1 1).1 ?_ ?_, (c8_orbital_velocity 1 (-1)).2.1 (Or.inl ?_)⟩ <;>
    norm_num

/-- C4: handle_collision marks the strictly lighter operand for removal, and
the second operand on a mass tie. -/
theorem c4_handle_collision (obj1 obj2 : CelestialObject) :
    (obj2.mass < obj1.mass → handle_collision obj1 obj2 = obj2) ∧
    (obj1.mass < obj2.mass → handle_collision obj1 obj2 = obj1) ∧
    (obj1.mass = obj2.mass → handle_collision obj1 obj2 = obj2) := by
  unfold handle_collision
  exact ⟨fun h => if_pos h.le, fun h => if_neg (not_le.mpr h), fun h => if_pos h.ge⟩

/-- Witness for C4 on concrete objects of masses 2 and 1, and a tie at mass 1. -/
theorem c4_handle_collision_witness :
    (mkObj "B" 1 (0, 0) (0, 0) 1 ObjectKind.star).mass <
      (mkObj "A" 2 (0, 0) (0, 0) 1 ObjectKind.star).mass ∧
    handle_collision (mkObj "A" 2 (0, 0) (0, 0) 1 ObjectKind.star)
        (mkObj "B" 1 (0, 0) (0, 0) 1 ObjectKind.star) =
      mkObj "B" 1 (0, 0) (0, 0) 1 ObjectKind.star ∧
    handle_collision (mkObj "C" 1 (0, 0) (0, 0) 1 ObjectKind.star)
        (mkObj "B" 1 (0, 0) (0, 0) 1 ObjectKind.star) =
      mkObj "B" 1 (0, 0) (0, 0) 1 ObjectKind.star := by
  have h1 : (mkObj "B" 1 (0, 0) (0, 0) 1 ObjectKind.star).mass <
      (mkObj "A" 2 (0, 0) (0, 0) 1 ObjectKind.star).mass := by
    simp only [mkObj]
    norm_num
  have h2 : (mkObj "C" 1 (0, 0) (0, 0) 1 ObjectKind.star).mass =
      (mkObj "B" 1 (0, 0) (0, 0) 1 ObjectKind.star).mass := rfl
  exact ⟨h1, (c4_handle_collision _ _).1 h1, (c4_handle_collision _ _).2.2 h2⟩

/-- C6: update_velocity applies v plus (F divided by m) times dt exactly to the
objects of positive mass that are not black holes; a black hole is unchanged
whatever its accumulated force, and a zero-mass object is unchanged. -/
theorem c6_update_velocity (obj : CelestialObject) (dt : ℝ) :
    (0 < obj.mass → obj.kind ≠ ObjectKind.blackHole →
      update_velocity obj dt =
        { obj with
            velocity :=
              (obj.velocity.1 + obj.force.1 / obj.mass * dt,
               obj.velocity.2 + obj.force.2 / obj.mass * dt) }) ∧
    (obj.kind = ObjectKind.blackHole → update_velocity obj dt = obj) ∧
    (obj.mass = 0 → update_velocity obj dt = obj) := by
  refine ⟨fun hm hk => ?_, fun hk => ?_, fun hm => ?_⟩
  · rw [update_velocity, if_pos ⟨hm, hk⟩]
  · rw [update_velocity, if_neg]
    simp [hk]
  · rw [update_velocity, if_neg]
    simp [hm]

/-- Witness for C6: a star of mass 2 with force (4, 0) is accelerated, a black
hole with the same force is frozen. -/
theorem c6_update_velocity_witness :
    update_velocity
        { mkObj "S" 2 (0, 0) (0, 0) 1 ObjectKind.star with force := (4, 0) } 1 =
      { { mkObj "S" 2 (0, 0) (0, 0) 1 ObjectKind.star with force := (4, 0) } with
          velocity := (0 + 4 / 2 * 1, 0 + 0 / 2 * 1) } ∧
    update_velocity
        { mkObj "H" 2 (0, 0) (0, 0) 1 ObjectKind.blackHole with force := (4, 0) } 1 =
      { mkObj "H" 2 (0, 0) (0, 0) 1 ObjectKind.blackHole with force := (4, 0) } := by
  constructor
  · exact (c6_update_velocity _ 1).1 (by norm_num [mkObj]) (by simp [mkObj])
  · exact (c6_update_velocity _ 1).2.1 rfl

/-- C7: a pair of objects at coincident positions contributes zero force to
both objects in the force pass, and the distance-zero branch of
calculate_gravitational_force returns 0, so its division is unreachable at
distance zero. -/
theorem c7_zero_distance (obj1 obj2 : CelestialObject)
    (h : obj1.position = obj2.position) :
    pairForce obj1 obj2 = (0, 0) ∧ pairForce obj2 obj1 = (0, 0) ∧
    ∀ mass1 mass2 : ℝ, calculate_gravitational_force mass1 mass2 0 = 0 := by
  have hd : ∀ a b : CelestialObject, a.position = b.position →
      calculate_distance a.position b.position = 0 := by
    intro a b hab
    rw [hab, calculate_distance]
    simp
  have hp : ∀ a b : CelestialObject, a.position = b.position →
      pairForce a b = (0, 0) := by
    intro a b hab
    rw [pairForce]
    split
    · rw [if_neg]
      rw [hd a b hab]
      exact lt_irrefl 0
    · rfl
  exact ⟨hp obj1 obj2 h, hp obj2 obj1 h.symm,
    fun mass1 mass2 => by rw [calculate_gravitational_force, if_pos rfl]⟩

/-- Witness for C7: two objects both at position (3, 4). -/
theorem c7_zero_distance_witness :
    pairForce (mkObj "A" 1 (3, 4) (0, 0) 1 ObjectKind.star)
        (mkObj "B" 1 (3, 4) (0, 0) 1 ObjectKind.star) = (0, 0) ∧
    calculate_gravitational_force 1 1 0 = 0 := by
  exact ⟨(c7_zero_distance (mkObj "A" 1 (3, 4) (0, 0) 1 ObjectKind.star)
      (mkObj "B" 1 (3, 4) (0, 0) 1 ObjectKind.star) rfl).1,
    (c7_zero_distance (mkObj "A" 1 (3, 4) (0, 0) 1 ObjectKind.star)
      (mkObj "B" 1 (3, 4) (0, 0) 1 ObjectKind.star) rfl).2.2 1 1⟩

/-- Unfolding of the position written by update_position. -/
theorem update_position_position (obj : CelestialObject) (dt : ℝ) :
    (update_position obj dt).position =
      (obj.position.1 + obj.velocity.1 * dt, obj.position.2 + obj.velocity.2 * dt) := rfl

/-- Unfolding of the trail written by update_position. -/
theorem update_position_trail (obj : CelestialObject) (dt : ℝ) :
    (update_position obj dt).trail =
      if (obj.trail ++ [(update_position obj dt).position]).length > obj.max_trail_length
      then (obj.trail ++ [(update_position obj dt).position]).drop 1
      else obj.trail ++ [(update_position obj dt).position] := rfl

/-- update_position leaves the trail capacity unchanged. -/
theorem update_position_max (obj : CelestialObject) (dt : ℝ) :
    (update_position obj dt).max_trail_length = obj.max_trail_length := rfl

/-- One position step keeps the trail within a capacity bound. -/
theorem trail_length_step (o : CelestialObject) (dt : ℝ) (cap : ℕ)
    (hmax : o.max_trail_length = cap) (h : o.trail.length ≤ cap) :
    (update_position o dt).trail.length ≤ cap := by
  rw [update_position_trail, hmax]
  split
  · rw [List.length_drop, List.length_append]
    simp
    omega
  · next h2 =>
      rw [List.length_append] at h2 ⊢
      simp at h2 ⊢
      omega

/-- One position step makes the new position the last trail entry as long as
the capacity is at least one. -/
theorem trail_last_step (o : CelestialObject) (dt : ℝ)
    (hc : 1 ≤ o.max_trail_length) :
    (update_position o dt).trail.getLast? = some (update_position o dt).position := by
  rw [update_position_trail]
  split
  · next h2 =>
      have h1 : 1 ≤ o.trail.length := by
        rw [List.length_append] at h2
        simp at h2
        omega
      rw [List.drop_append_of_le_length h1, List.getLast?_concat]
  · rw [List.getLast?_concat]

/-- C9: after any number of position-integration steps the trail length never
exceeds the capacity, the last trail entry is the most recent position, and a
step taken at capacity evicts exactly the oldest entry (FIFO). -/
theorem c9_trail_invariant (obj : CelestialObject) (dt : ℝ) (n : ℕ)
    (hlen : obj.trail.length ≤ obj.max_trail_length)
    (hcap : 1 ≤ obj.max_trail_length) :
    (iteratePosition obj dt n).trail.length ≤ obj.max_trail_length ∧
    (1 ≤ n → (iteratePosition obj dt n).trail.getLast? =
      some (iteratePosition obj dt n).position) ∧
    (∀ (o : CelestialObject) (dt2 : ℝ), 1 ≤ o.max_trail_length →
      o.max_trail_length ≤ o.trail.length →
      (update_position o dt2).trail =
        o.trail.tail ++ [(update_position o dt2).position]) := by
  have hmax : ∀ m, (iteratePosition obj dt m).max_trail_length = obj.max_trail_length := by
    intro m
    induction m with
    | zero => rfl
    | succ k ih => rw [iteratePosition, update_position_max, ih]
  have hlen' : ∀ m, (iteratePosition obj dt m).trail.length ≤ obj.max_trail_length := by
    intro m
    induction m with
    | zero => exact hlen
    | succ k ih =>
        rw [iteratePosition]
        exact trail_length_step _ dt _ (hmax k) ih
  refine ⟨hlen' n, fun hn => ?_, fun o dt2 hc hfull => ?_⟩
  · obtain ⟨k, rfl⟩ : ∃ k, n = k + 1 := ⟨n - 1, by omega⟩
    rw [iteratePosition]
    exact trail_last_step _ dt (by rw [hmax k]; exact hcap)
  · have hgt : (o.trail ++ [(update_position o dt2).position]).length > o.max_trail_length := by
      rw [List.length_append]
      simp
      omega
    rw [update_position_trail, if_pos hgt,
      List.drop_append_of_le_length (le_trans hc hfull), List.drop_one]

/-- Witness for C9: a fresh star stepped twice stays within its capacity of 50
and ends its trail at its current position. -/
theorem c9_trail_invariant_witness :
    (mkObj "A" 1 (0, 0) (1, 0) 1 ObjectKind.star).trail.length ≤
      (mkObj "A" 1 (0, 0) (1, 0) 1 ObjectKind.star).max_trail_length ∧
    1 ≤ (mkObj "A" 1 (0, 0) (1, 0) 1 ObjectKind.star).max_trail_length ∧
    (iteratePosition (mkObj "A" 1 (0, 0) (1, 0) 1 ObjectKind.star) 1 2).trail.length ≤
      (mkObj "A" 1 (0, 0) (1, 0) 1 ObjectKind.star).max_trail_length ∧
    (iteratePosition (mkObj "A" 1 (0, 0) (1, 0) 1 ObjectKind.star) 1 2).trail.getLast? =
      some (iteratePosition (mkObj "A" 1 (0, 0) (1, 0) 1 ObjectKind.star) 1 2).position := by
  have h1 : (mkObj "A" 1 (0, 0) (1, 0) 1 ObjectKind.star).trail.length ≤
      (mkObj "A" 1 (0, 0) (1, 0) 1 ObjectKind.star).max_trail_length := by
    simp [mkObj]
  have h2 : 1 ≤ (mkObj "A" 1 (0, 0) (1, 0) 1 ObjectKind.star).max_trail_length := by
    simp [mkObj]
  exact ⟨h1, h2,
    (c9_trail_invariant (mkObj "A" 1 (0, 0) (1, 0) 1 ObjectKind.star) 1 2 h1 h2).1,
    (c9_trail_invariant (mkObj "A" 1 (0, 0) (1, 0) 1 ObjectKind.star) 1 2 h1 h2).2.1
      (by norm_num)⟩

/-- Membership characterisation of the colliding index pairs. -/
theorem mem_collidingIndexPairs (objects : List CelestialObject) (i j : ℕ) :
    (i, j) ∈ collidingIndexPairs objects ↔
      i < j ∧ j < objects.length ∧
        calculate_distance (objects.getD i default).position
            (objects.getD j default).position <
          (objects.getD i default).size + (objects.getD j default).size := by
  rw [collidingIndexPairs, List.mem_filterMap]
  constructor
  · rintro ⟨⟨a, b⟩, hmem, hf⟩
    rw [List.mem_product, List.mem_range, List.mem_range] at hmem
    split at hf
    · next hcond =>
        obtain ⟨rfl, rfl⟩ : a = i ∧ b = j := by
          injection hf with hf2
          exact ⟨congrArg Prod.fst hf2, congrArg Prod.snd hf2⟩
        exact ⟨hcond.1, hmem.2, hcond.2⟩
    · exact absurd hf (Option.noConfusion)
  · rintro ⟨hij, hjn, hdist⟩
    refine ⟨(i, j), ?_, ?_⟩
    · rw [List.mem_product, List.mem_range, List.mem_range]
      exact ⟨lt_trans hij hjn, hjn⟩
    · rw [if_pos ⟨hij, hdist⟩]

/-- C3: with collision detection enabled, check_collisions returns exactly the
pairs at index positions i < j whose distance is strictly below the size sum;
the underlying index-pair list has no duplicates, never contains both
orientations of a pair, and excludes pairs at distance exactly equal to the
size sum. -/
theorem c3_check_collisions (engine : PhysicsEngine) (objects : List CelestialObject)
    (h : engine.collision_detection = true) :
    check_collisions engine objects =
      some ((collidingIndexPairs objects).map fun p =>
        (objects.getD p.1 default, objects.getD p.2 default)) ∧
    (∀ i j : ℕ, (i, j) ∈ collidingIndexPairs objects ↔
      i < j ∧ j < objects.length ∧
        calculate_distance (objects.getD i default).position
            (objects.getD j default).position <
          (objects.getD i default).size + (objects.getD j default).size) ∧
    (collidingIndexPairs objects).Nodup ∧
    (∀ i j : ℕ, (i, j) ∈ collidingIndexPairs objects →
      (j, i) ∉ collidingIndexPairs objects) ∧
    (∀ i j : ℕ,
      calculate_distance (objects.getD i default).position
          (objects.getD j default).position =
        (objects.getD i default).size + (objects.getD j default).size →
      (i, j) ∉ collidingIndexPairs objects) := by
  refine ⟨?_, mem_collidingIndexPairs objects, ?_, ?_, ?_⟩
  · rw [check_collisions, if_pos h]
  · refine List.Nodup.filterMap ?_
      (((List.nodup_range _)).product ((List.nodup_range _)))
    intro a b c hca hcb
    have ha : a = c := by
      revert hca
      split
      · intro hca
        exact Option.mem_some_iff.mp hca
      · intro hca
        exact absurd hca (by simp)
    have hb : b = c := by
      revert hcb
      split
      · intro hcb
        exact Option.mem_some_iff.mp hcb
      · intro hcb
        exact absurd hcb (by simp)
    rw [ha, hb]
  · intro i j hij hji
    rw [mem_collidingIndexPairs] at hij hji
    exact lt_asymm hij.1 hji.1
  · intro i j heq hmem
    rw [mem_collidingIndexPairs] at hmem
    rw [heq] at hmem
    exact lt_irrefl _ hmem.2.2

/-- Witness for C3 on an enabled engine and the empty collection. -/
theorem c3_check_collisions_witness :
    (PhysicsEngine.mk true true).collision_detection = true ∧
    check_collisions (PhysicsEngine.mk true true) [] =
      some ((collidingIndexPairs []).map fun p =>
        (([] : List CelestialObject).getD p.1 default,
         ([] : List CelestialObject).getD p.2 default)) :=
  ⟨rfl, (c3_check_collisions (PhysicsEngine.mk true true) [] rfl).1⟩

/-- C10: with collision detection disabled, check_collisions returns None and
never an (empty or other) pair list, and a Universe.update tick aborts: the
unconditional iteration over None cannot run. -/
theorem c10_disabled_collision_detection (engine : PhysicsEngine)
    (objects : List CelestialObject) (h : engine.collision_detection = false) :
    check_collisions engine objects = none ∧
    (∀ L, check_collisions engine objects ≠ some L) ∧
    (∀ u : Universe, u.physics_engine = engine → Universe.update u = none) := by
  have hnone : ∀ objs : List CelestialObject, check_collisions engine objs = none := by
    intro objs
    rw [check_collisions, if_neg]
    simp [h]
  refine ⟨hnone objects, fun L hw => ?_, fun u hu => ?_⟩
  · rw [hnone] at hw
    exact Option.noConfusion hw
  · simp only [Universe.update, hu, hnone]

/-- Witness for C10 at a concrete disabled engine and a one-object universe. -/
theorem c10_disabled_collision_detection_witness :
    check_collisions (PhysicsEngine.mk true false)
      [mkObj "A" 1 (0, 0) (0, 0) 1 ObjectKind.star] = none ∧
    Universe.update
      (Universe.mk [("A", mkObj "A" 1 (0, 0) (0, 0) 1 ObjectKind.star)]
        (PhysicsEngine.mk true false) 0 5) = none :=
  ⟨(c10_disabled_collision_detection (PhysicsEngine.mk true false)
      [mkObj "A" 1 (0, 0) (0, 0) 1 ObjectKind.star] rfl).1,
   (c10_disabled_collision_detection (PhysicsEngine.mk true false)
      [mkObj "A" 1 (0, 0) (0, 0) 1 ObjectKind.star] rfl).2.2
      (Universe.mk [("A", mkObj "A" 1 (0, 0) (0, 0) 1 ObjectKind.star)]
        (PhysicsEngine.mk true false) 0 5) rfl⟩

/-- Absence characterisation of the mapping lookup. -/
theorem lookupObject_eq_none (objects : List (String × CelestialObject)) (name : String) :
    lookupObject objects name = none ↔ ∀ p ∈ objects, p.1 ≠ name := by
  rw [lookupObject]
  simp [List.find?_eq_none]

/-- One fold step of removePass over a single marked object. -/
theorem removePass_singleton (objects : List (String × CelestialObject))
    (obj : CelestialObject) :
    removePass objects [obj] =
      if (lookupObject objects obj.name).isSome then popObject objects obj.name
      else objects := rfl

/-- removePass over an appended mark list is the composition of the passes. -/
theorem removePass_append (objects : List (String × CelestialObject))
    (l1 l2 : List CelestialObject) :
    removePass objects (l1 ++ l2) = removePass (removePass objects l1) l2 := by
  simp [removePass, List.foldl_append]

/-- removePass only ever drops entries. -/
theorem removePass_sublist (l : List CelestialObject) :
    ∀ objects : List (String × CelestialObject),
      List.Sublist (removePass objects l) objects := by
  induction l with
  | nil => exact fun objects => List.Sublist.refl objects
  | cons b t ih =>
      intro objects
      have hstep : List.Sublist
          (if (lookupObject objects b.name).isSome then popObject objects b.name
           else objects) objects := by
        split
        · exact List.eraseP_sublist objects
        · exact List.Sublist.refl objects
      exact List.Sublist.trans (ih _) hstep

/-- With duplicate-free keys, popping a key leaves no entry with that key. -/
theorem lookup_popObject_self (objects : List (String × CelestialObject)) (name : String)
    (h : (objects.map Prod.fst).Nodup) :
    lookupObject (popObject objects name) name = none := by
  induction objects with
  | nil => rfl
  | cons p t ih =>
      rw [List.map_cons, List.nodup_cons] at h
      rw [popObject, List.eraseP_cons]
      by_cases hp : p.1 = name
      · rw [show (p.1 == name) = true from beq_iff_eq.mpr hp, cond_true]
        rw [lookupObject_eq_none]
        intro q hq hqname
        refine h.1 ?_
        rw [hp, ← hqname]
        exact List.mem_map_of_mem Prod.fst hq
      · rw [show (p.1 == name) = false from beq_eq_false_iff_ne.mpr hp, cond_false]
        rw [lookupObject_eq_none]
        intro q hq
        rcases List.mem_cons.mp hq with hq1 | hq2
        · rw [hq1]
          exact hp
        · have := (lookupObject_eq_none (popObject t name) name).mp (ih h.2)
          exact this q hq2

/-- With duplicate-free keys, removing the same object twice in a row is the
same as removing it once. -/
theorem removePass_idem (m : List (String × CelestialObject)) (obj : CelestialObject)
    (h : (m.map Prod.fst).Nodup) :
    removePass (removePass m [obj]) [obj] = removePass m [obj] := by
  by_cases hl : (lookupObject m obj.name).isSome
  · rw [removePass_singleton m obj, if_pos hl, removePass_singleton, if_neg]
    rw [lookup_popObject_self m obj.name h]
    simp
  · rw [removePass_singleton m obj, if_neg hl, removePass_singleton, if_neg hl]

/-- C5: a marked object whose name is already gone is skipped without effect,
a duplicate mark in the same tick changes nothing, and Universe.update removes
all marks in one deferred pass over the objects that collision detection was
evaluated on. -/
theorem c5_deferred_removal :
    (∀ (objects : List (String × CelestialObject)) (obj : CelestialObject),
      lookupObject objects obj.name = none → removePass objects [obj] = objects) ∧
    (∀ (objects : List (String × CelestialObject)) (l : List CelestialObject)
        (obj : CelestialObject), (objects.map Prod.fst).Nodup →
      removePass objects (l ++ [obj, obj]) = removePass objects (l ++ [obj])) ∧
    (∀ (u : Universe) (collisions : List (CelestialObject × CelestialObject)),
      check_collisions u.physics_engine (u.integrated.map Prod.snd) = some collisions →
      Universe.update u = some { u with
        objects := removePass u.integrated
          (collisions.map fun p => handle_collision p.1 p.2)
        time := u.time + u.time_step }) := by
  refine ⟨fun objects obj h => ?_, fun objects l obj h => ?_, fun u collisions h => ?_⟩
  · rw [removePass_singleton, if_neg]
    rw [h]
    simp
  · have hm : ((removePass objects l).map Prod.fst).Nodup :=
      h.sublist ((removePass_sublist l objects).map Prod.fst)
    rw [show l ++ [obj, obj] = (l ++ [obj]) ++ [obj] by simp,
      removePass_append objects (l ++ [obj]) [obj], removePass_append objects l [obj]]
    exact removePass_idem _ obj hm
  · rw [Universe.update, h]

/-- Witness for C5: skipping an absent name, deduplicated marks on a concrete
one-entry mapping, and a full update of an empty universe. -/
theorem c5_deferred_removal_witness :
    removePass [("A", mkObj "A" 1 (0, 0) (0, 0) 1 ObjectKind.star)]
        [mkObj "B" 1 (0, 0) (0, 0) 1 ObjectKind.star] =
      [("A", mkObj "A" 1 (0, 0) (0, 0) 1 ObjectKind.star)] ∧
    removePass [("A", mkObj "A" 1 (0, 0) (0, 0) 1 ObjectKind.star)]
        ([] ++ [mkObj "A" 1 (0, 0) (0, 0) 1 ObjectKind.star,
                mkObj "A" 1 (0, 0) (0, 0) 1 ObjectKind.star]) =
      removePass [("A", mkObj "A" 1 (0, 0) (0, 0) 1 ObjectKind.star)]
        ([] ++ [mkObj "A" 1 (0, 0) (0, 0) 1 ObjectKind.star]) ∧
    Universe.update (Universe.mk [] (PhysicsEngine.mk true true) 0 5) =
      some { Universe.mk [] (PhysicsEngine.mk true true) 0 5 with
              objects := removePass
                (Universe.mk [] (PhysicsEngine.mk true true) 0 5).integrated
                (([] : List (CelestialObject × CelestialObject)).map
                  fun p => handle_collision p.1 p.2)
              time := (0 : ℝ) + 5 } := by
  refine ⟨c5_deferred_removal.1 _ _ ?_, c5_deferred_removal.2.1 _ _ _ ?_,
    c5_deferred_removal.2.2 _ [] ?_⟩
  · rw [lookupObject_eq_none]
    intro p hp
    rcases List.mem_singleton.mp hp with rfl
    simp [mkObj]
  · simp
  · rfl

/-- Swapping the operands of one pair-iteration negates the force it applies. -/
theorem pairForce_antisymm (obj1 obj2 : CelestialObject) :
    pairForce obj2 obj1 = -pairForce obj1 obj2 := by
  have hdist : calculate_distance obj2.position obj1.position =
      calculate_distance obj1.position obj2.position := by
    rw [calculate_distance, calculate_distance]
    congr 1
    ring
  have hlen : Real.sqrt
      ((obj1.position.1 - obj2.position.1) * (obj1.position.1 - obj2.position.1) +
        (obj1.position.2 - obj2.position.2) * (obj1.position.2 - obj2.position.2)) =
      Real.sqrt
      ((obj2.position.1 - obj1.position.1) * (obj2.position.1 - obj1.position.1) +
        (obj2.position.2 - obj1.position.2) * (obj2.position.2 - obj1.position.2)) := by
    congr 1
    ring
  have hmag : calculate_gravitational_force obj2.mass obj1.mass
      (calculate_distance obj1.position obj2.position) =
      calculate_gravitational_force obj1.mass obj2.mass
      (calculate_distance obj1.position obj2.position) := by
    rw [calculate_gravitational_force, calculate_gravitational_force]
    split_ifs with h
    · rfl
    · ring
  simp only [pairForce, hdist, hlen, hmag]
  by_cases hm : obj1.mass > 0 ∧ obj2.mass > 0
  · rw [if_pos (And.intro hm.2 hm.1), if_pos hm]
    split_ifs with h1 h2
    · rw [Prod.neg_mk, Prod.mk.injEq]
      constructor <;> ring
    · simp
    · simp
  · rw [if_neg (fun hc => hm (And.intro hc.2 hc.1)), if_neg hm]
    simp

/-- Swapping the iteration indices of a pair leaves its net contribution to any
fixed object unchanged. -/
theorem pairContrib_swap (objects : List CelestialObject) (i j k : ℕ) :
    pairContrib objects j i k = pairContrib objects i j k := by
  rw [pairContrib, pairContrib,
    pairForce_antisymm (objects.getD i default) (objects.getD j default), neg_neg]
  exact add_comm _ _

/-- Splitting of the distinct-indices guard into the two strict orders. -/
theorem ite_ne_eq_add (i j : ℕ) (c : ℝ × ℝ) :
    (if i ≠ j then c else 0) = (if i < j then c else 0) + (if j < i then c else 0) := by
  by_cases h1 : i < j
  · rw [if_pos (Nat.ne_of_lt h1), if_pos h1, if_neg (by omega), add_zero]
  · by_cases h2 : j < i
    · rw [if_pos (by omega), if_neg h1, if_pos h2, zero_add]
    · rw [if_neg (by omega), if_neg h1, if_neg h2, add_zero]

/-- C1 amended: the double-pass net accumulated force of the reference force
pass is exactly twice the net force of the single-pass equal-and-opposite
formulation, for every object, not equal to it. -/
theorem c1_double_pass_doubles (objects : List CelestialObject) (k : ℕ) :
    netForce objects k = singlePassNetForce objects k + singlePassNetForce objects k := by
  rw [netForce, singlePassNetForce]
  have hsplit : (∑ i ∈ Finset.range objects.length, ∑ j ∈ Finset.range objects.length,
      if i ≠ j then pairContrib objects i j k else 0) =
      (∑ i ∈ Finset.range objects.length, ∑ j ∈ Finset.range objects.length,
        if i < j then pairContrib objects i j k else 0) +
      (∑ i ∈ Finset.range objects.length, ∑ j ∈ Finset.range objects.length,
        if j < i then pairContrib objects i j k else 0) := by
    rw [← Finset.sum_add_distrib]
    refine Finset.sum_congr rfl fun i _ => ?_
    rw [← Finset.sum_add_distrib]
    exact Finset.sum_congr rfl fun j _ => ite_ne_eq_add i j _
  have hswap : (∑ i ∈ Finset.range objects.length, ∑ j ∈ Finset.range objects.length,
      if j < i then pairContrib objects i j k else 0) =
      ∑ i ∈ Finset.range objects.length, ∑ j ∈ Finset.range objects.length,
        if i < j then pairContrib objects i j k else 0 := by
    rw [Finset.sum_comm]
    refine Finset.sum_congr rfl fun a _ => Finset.sum_congr rfl fun b _ => ?_
    by_cases hab : a < b
    · rw [if_pos hab, if_pos hab, pairContrib_swap]
    · rw [if_neg hab, if_neg hab]
  rw [hsplit, hswap]

/-- C1 counterexample: for two unit masses one unit apart, the double-pass net
force on the first object differs from the single-pass net force. -/
theorem c1_counterexample :
    netForce [mkObj "A" 1 (0, 0) (0, 0) 1 ObjectKind.star,
      mkObj "B" 1 (1, 0) (0, 0) 1 ObjectKind.star] 0 ≠
    singlePassNetForce [mkObj "A" 1 (0, 0) (0, 0) 1 ObjectKind.star,
      mkObj "B" 1 (1, 0) (0, 0) 1 ObjectKind.star] 0 := by
  have hd1 : calculate_distance ((0 : ℝ), (0 : ℝ)) ((1 : ℝ), (0 : ℝ)) = 1 := by
    rw [calculate_distance]
    rw [show (((0 : ℝ), (0 : ℝ)).1 - ((1 : ℝ), (0 : ℝ)).1) ^ 2 +
        (((0 : ℝ), (0 : ℝ)).2 - ((1 : ℝ), (0 : ℝ)).2) ^ 2 = 1 by norm_num]
    exact Real.sqrt_one
  have hsq : Real.sqrt ((((1 : ℝ), (0 : ℝ)).1 - ((0 : ℝ), (0 : ℝ)).1) *
      (((1 : ℝ), (0 : ℝ)).1 - ((0 : ℝ), (0 : ℝ)).1) +
      (((1 : ℝ), (0 : ℝ)).2 - ((0 : ℝ), (0 : ℝ)).2) *
      (((1 : ℝ), (0 : ℝ)).2 - ((0 : ℝ), (0 : ℝ)).2)) = 1 := by
    rw [show (((1 : ℝ), (0 : ℝ)).1 - ((0 : ℝ), (0 : ℝ)).1) *
        (((1 : ℝ), (0 : ℝ)).1 - ((0 : ℝ), (0 : ℝ)).1) +
        (((1 : ℝ), (0 : ℝ)).2 - ((0 : ℝ), (0 : ℝ)).2) *
        (((1 : ℝ), (0 : ℝ)).2 - ((0 : ℝ), (0 : ℝ)).2) = 1 by norm_num]
    exact Real.sqrt_one
  have hAB : pairForce (mkObj "A" 1 (0, 0) (0, 0) 1 ObjectKind.star)
      (mkObj "B" 1 (1, 0) (0, 0) 1 ObjectKind.star) = (G * FORCE_CONSTANT, 0) := by
    simp only [pairForce, mkObj, hd1, hsq]
    rw [if_pos (And.intro one_pos one_pos), if_pos one_pos, if_pos one_pos,
      calculate_gravitational_force, if_neg (by norm_num : (1 : ℝ) ≠ 0), Prod.mk.injEq]
    constructor <;> norm_num
  have hgetD0 : [mkObj "A" 1 (0, 0) (0, 0) 1 ObjectKind.star,
      mkObj "B" 1 (1, 0) (0, 0) 1 ObjectKind.star].getD 0 default =
      mkObj "A" 1 (0, 0) (0, 0) 1 ObjectKind.star := rfl
  have hgetD1 : [mkObj "A" 1 (0, 0) (0, 0) 1 ObjectKind.star,
      mkObj "B" 1 (1, 0) (0, 0) 1 ObjectKind.star].getD 1 default =
      mkObj "B" 1 (1, 0) (0, 0) 1 ObjectKind.star := rfl
  have hc01 : pairContrib [mkObj "A" 1 (0, 0) (0, 0) 1 ObjectKind.star,
      mkObj "B" 1 (1, 0) (0, 0) 1 ObjectKind.star] 0 1 0 = (G * FORCE_CONSTANT, 0) := by
    rw [pairContrib, hgetD0, hgetD1, hAB, if_pos rfl, if_neg (by omega), add_zero]
  have hc10 : pairContrib [mkObj "A" 1 (0, 0) (0, 0) 1 ObjectKind.star,
      mkObj "B" 1 (1, 0) (0, 0) 1 ObjectKind.star] 1 0 0 = (G * FORCE_CONSTANT, 0) := by
    rw [pairContrib, hgetD0, hgetD1,
      pairForce_antisymm (mkObj "A" 1 (0, 0) (0, 0) 1 ObjectKind.star)
        (mkObj "B" 1 (1, 0) (0, 0) 1 ObjectKind.star), hAB,
      if_neg (by omega), if_pos rfl, neg_neg, zero_add]
  have hlen2 : [mkObj "A" 1 (0, 0) (0, 0) 1 ObjectKind.star,
      mkObj "B" 1 (1, 0) (0, 0) 1 ObjectKind.star].length = 2 := rfl
  have hnet : netForce [mkObj "A" 1 (0, 0) (0, 0) 1 ObjectKind.star,
      mkObj "B" 1 (1, 0) (0, 0) 1 ObjectKind.star] 0 =
      (G * FORCE_CONSTANT, 0) + (G * FORCE_CONSTANT, 0) := by
    rw [netForce, hlen2]
    rw [Finset.sum_range_succ, Finset.sum_range_succ, Finset.sum_range_zero,
      Finset.sum_range_succ, Finset.sum_range_succ, Finset.sum_range_zero,
      Finset.sum_range_succ, Finset.sum_range_succ, Finset.sum_range_zero]
    rw [if_neg (by omega), if_pos (by omega), if_pos (by omega), if_neg (by omega)]
    rw [hc01, hc10]
    abel
  have hsingle : singlePassNetForce [mkObj "A" 1 (0, 0) (0, 0) 1 ObjectKind.star,
      mkObj "B" 1 (1, 0) (0, 0) 1 ObjectKind.star] 0 = (G * FORCE_CONSTANT, 0) := by
    rw [singlePassNetForce, hlen2]
    rw [Finset.sum_range_succ, Finset.sum_range_succ, Finset.sum_range_zero,
      Finset.sum_range_succ, Finset.sum_range_succ, Finset.sum_range_zero,
      Finset.sum_range_succ, Finset.sum_range_succ, Finset.sum_range_zero]
    rw [if_neg (by omega), if_pos (by omega), if_neg (by omega), if_neg (by omega)]
    rw [hc01]
    abel
  rw [hnet, hsingle]
  intro hcontra
  have hfst := congrArg Prod.fst hcontra
  rw [Prod.fst_add] at hfst
  have hGK : G * FORCE_CONSTANT ≠ 0 := by
    rw [G, FORCE_CONSTANT]
    norm_num
  simp only at hfst
  exact hGK (by linarith [hfst])

/-- C2 amended: the gravity_enabled flag gates only the force phase.  With
gravity disabled the force pass is the identity (no reset, no accumulation),
but Universe.update still runs velocity and position integration, collision
detection and removal on every tick. -/
theorem c2_gravity_flag (u : Universe)
    (h1 : u.physics_engine.gravity_enabled = false)
    (h2 : u.physics_engine.collision_detection = true) :
    calculate_gravitational_forces u.physics_engine (u.objects.map Prod.snd) =
      u.objects.map Prod.snd ∧
    u.integrated = (u.objects.map Prod.fst).zip
      (update_objects (u.objects.map Prod.snd) u.time_step) ∧
    Universe.update u = some { u with
      objects := removePass u.integrated
        ((collidingIndexPairs (u.integrated.map Prod.snd)).map fun p =>
          handle_collision ((u.integrated.map Prod.snd).getD p.1 default)
            ((u.integrated.map Prod.snd).getD p.2 default))
      time := u.time + u.time_step } := by
  have hforce : calculate_gravitational_forces u.physics_engine (u.objects.map Prod.snd) =
      u.objects.map Prod.snd := by
    rw [calculate_gravitational_forces, if_neg]
    simp [h1]
  refine ⟨hforce, ?_, ?_⟩
  · rw [Universe.integrated, hforce]
  · simp only [Universe.update, check_collisions, h2, if_true, List.map_map]
    rfl

/-- Concrete one-object universe with gravity disabled and a moving body,
exercising C2. -/
noncomputable def c2Universe : Universe :=
  Universe.mk [("A", mkObj "A" 0 (0, 0) (1, 0) 1 ObjectKind.star)]
    (PhysicsEngine.mk false true) 0 5

/-- C2 counterexample: a tick of c2Universe moves its body from (0, 0) to
(5, 0) even though gravity is disabled, so position, trail and the tick are
not frozen by the flag. -/
theorem c2_counterexample :
    c2Universe.physics_engine.gravity_enabled = false ∧
    (c2Universe.objects.map fun p => p.2.position) = [((0 : ℝ), (0 : ℝ))] ∧
    (Universe.update c2Universe).map (fun w => w.objects.map fun p => p.2.position) =
      some [((5 : ℝ), (0 : ℝ))] ∧
    ((5 : ℝ), (0 : ℝ)) ≠ ((0 : ℝ), (0 : ℝ)) := by
  have hvel : update_velocity (mkObj "A" 0 (0, 0) (1, 0) 1 ObjectKind.star) 5 =
      mkObj "A" 0 (0, 0) (1, 0) 1 ObjectKind.star := by
    rw [update_velocity, if_neg]
    simp [mkObj]
  have hpos : update_position (mkObj "A" 0 (0, 0) (1, 0) 1 ObjectKind.star) 5 =
      ⟨"A", 0, (5, 0), (1, 0), 1, (0, 0), [(5, 0)], 50, ObjectKind.star⟩ := by
    simp only [update_position, mkObj]
    norm_num
  have hint : c2Universe.integrated =
      [("A", (⟨"A", 0, (5, 0), (1, 0), 1, (0, 0), [(5, 0)], 50,
        ObjectKind.star⟩ : CelestialObject))] := by
    rw [Universe.integrated]
    show ["A"].zip (update_objects (calculate_gravitational_forces
      (PhysicsEngine.mk false true) [mkObj "A" 0 (0, 0) (1, 0) 1 ObjectKind.star]) 5) = _
    rw [show calculate_gravitational_forces (PhysicsEngine.mk false true)
        [mkObj "A" 0 (0, 0) (1, 0) 1 ObjectKind.star] =
        [mkObj "A" 0 (0, 0) (1, 0) 1 ObjectKind.star] by
      rw [calculate_gravitational_forces, if_neg]
      simp]
    rw [update_objects, List.map_cons, List.map_nil, List.map_cons, List.map_nil,
      hvel, hpos]
    rfl
  have hchk : check_collisions (PhysicsEngine.mk false true)
      [(⟨"A", 0, (5, 0), (1, 0), 1, (0, 0), [(5, 0)], 50,
        ObjectKind.star⟩ : CelestialObject)] = some [] := by
    rw [check_collisions, if_pos rfl]
    rw [show collidingIndexPairs [(⟨"A", 0, (5, 0), (1, 0), 1, (0, 0), [(5, 0)], 50,
        ObjectKind.star⟩ : CelestialObject)] = [] by simp [collidingIndexPairs]]
    rw [List.map_nil]
  refine ⟨rfl, rfl, ?_, ?_⟩
  · simp only [Universe.update, hint]
    rw [show ([("A", (⟨"A", 0, (5, 0), (1, 0), 1, (0, 0), [(5, 0)], 50,
        ObjectKind.star⟩ : CelestialObject))].map Prod.snd) =
        [(⟨"A", 0, (5, 0), (1, 0), 1, (0, 0), [(5, 0)], 50,
          ObjectKind.star⟩ : CelestialObject)] from rfl]
    rw [show c2Universe.physics_engine = PhysicsEngine.mk false true from rfl, hchk]
    rfl
  · intro hx
    rw [Prod.mk.injEq] at hx
    exact absurd hx.1 (by norm_num)

/-- Witness for C2 at the concrete universe c2Universe. -/
theorem c2_gravity_flag_witness :
    c2Universe.physics_engine.gravity_enabled = false ∧
    c2Universe.physics_engine.collision_detection = true ∧
    calculate_gravitational_forces c2Universe.physics_engine
        (c2Universe.objects.map Prod.snd) =
      c2Universe.objects.map Prod.snd :=
  ⟨rfl, rfl, (c2_gravity_flag c2Universe rfl rfl).1⟩

end UniverseSim
